import Mathlib

/-!
Formal model of the ADF4377 driver (`drv/adf4377.c`).

The driver is shallowly embedded: every C function that the development
reasons about is translated to an executable Lean function.  Machine
integers are modelled as `Nat` with explicit `% 2^w` truncation at the
points where the C code stores into a fixed-width variable, and `int32_t`
return codes are modelled as `Int`.  The SPI bus is modelled as an explicit
mock (a function from the transmitted bytes, or from the transaction index,
to the bus result), and the transaction trace is threaded explicitly.

The repository ships only `adf4377.c`; the headers `adf4377.h`, `error.h`
and the platform drivers are absent.  Constants and contracts taken from
those missing files are modelled from the specification and marked
`Modelled from the spec:` in their doc comments.
-/

set_option autoImplicit false

namespace Adf4377

/-- Modelled from the spec: the `SUCCESS` return code of the missing
`error.h` (all error codes are non-`SUCCESS`, hence nonzero). -/
def SUCCESS : Int := 0

/-- Modelled from the spec: the generic `FAILURE` code of the missing
`error.h`; a negative error code distinct from `SUCCESS`. -/
def FAILURE : Int := -1

/-- Modelled from the spec (wire format, §6): byte 0 of a write transaction
is the command `0x00`. -/
def ADF4377_SPI_WRITE_CMD : Nat := 0x00

/-- Modelled from the spec (wire format, §6): byte 0 of a read transaction
is the command `0x80`. -/
def ADF4377_SPI_READ_CMD : Nat := 0x80

/-- Modelled from the spec (wire format, §6): the dummy data byte `0x00`
transmitted during a read. -/
def ADF4377_SPI_DUMMY_DATA : Nat := 0x00

/-- Modelled from the spec (§4.2): the scratchpad sentinel byte `0xA5`. -/
def ADF4377_SPI_SCRATCHPAD : Nat := 0xA5

/-- Modelled from the spec (§4.2): the fixed expected chip-type constant of
the missing header.  The spec fixes no numeric value; any fixed byte works
for the development, `0x06` is used. -/
def ADF4377_CHIP_TYPE : Nat := 0x06

/-- Modelled from the spec (§4.3): the self-clearing soft-reset bit of
register 0x00 that the poll loop tests, `ADF4377_SOFT_RESET(ADF4377_SOFT_RESET_EN)`
in the source.  The spec fixes no bit position; bit 0 is used. -/
def ADF4377_SOFT_RESET_BIT : Nat := 0x01

/-- Modelled from the spec (scenarios S1/S2): the maximum allowed PFD
frequency `ADF4377_MAX_FREQ_PFD`, 250 MHz. -/
def ADF4377_MAX_FREQ_PFD : Nat := 250000000

/-- Modelled from the spec (§4.6 table): threshold `ADF4377_FREQ_PFD_80MHZ`. -/
def ADF4377_FREQ_PFD_80MHZ : Nat := 80000000

/-- Modelled from the spec (§4.6 table): threshold `ADF4377_FREQ_PFD_125MHZ`. -/
def ADF4377_FREQ_PFD_125MHZ : Nat := 125000000

/-- Modelled from the spec (§4.6 table): threshold `ADF4377_FREQ_PFD_160MHZ`. -/
def ADF4377_FREQ_PFD_160MHZ : Nat := 160000000

/-- Modelled from the spec (§4.6 table): threshold `ADF4377_FREQ_PFD_250MHZ`. -/
def ADF4377_FREQ_PFD_250MHZ : Nat := 250000000

/-- Modelled from the spec (§4.6 table): threshold `ADF4377_FREQ_PFD_320MHZ`. -/
def ADF4377_FREQ_PFD_320MHZ : Nat := 320000000

/-- Modelled from the spec (§4.6 table): divide-chain setting `DCLK_DIV1 = 1`
(the spec's table lists divide ratios; the header's register encodings are
not modelled). -/
def ADF4377_DCLK_DIV1_1 : Nat := 1

/-- Modelled from the spec (§4.6 table): divide-chain setting `DCLK_DIV1 = 2`. -/
def ADF4377_DCLK_DIV1_2 : Nat := 2

/-- Modelled from the spec (§4.6 table): divide-chain setting `DCLK_DIV2 = 1`. -/
def ADF4377_DCLK_DIV2_1 : Nat := 1

/-- Modelled from the spec (§4.6 table): divide-chain setting `DCLK_DIV2 = 2`. -/
def ADF4377_DCLK_DIV2_2 : Nat := 2

/-- Modelled from the spec (§4.6): `DCLK_MODE` off.  Numerically 0, as
required by the `1 << dclk_mode` factor in the VCO band divider formula. -/
def ADF4377_DCLK_MODE_DIS : Nat := 0

/-- Modelled from the spec (§4.6): `DCLK_MODE` on.  Numerically 1, as
required by the `1 << dclk_mode` factor in the VCO band divider formula. -/
def ADF4377_DCLK_MODE_EN : Nat := 1

/-- Modelled from the spec: `bit_swap_constant_8` of the missing utility
header reverses the eight bits of a byte. -/
def bit_swap_constant_8 (x : Nat) : Nat :=
  ((x >>> 7) &&& 1) ||| (((x >>> 6) &&& 1) <<< 1) ||| (((x >>> 5) &&& 1) <<< 2) |||
  (((x >>> 4) &&& 1) <<< 3) ||| (((x >>> 3) &&& 1) <<< 4) ||| (((x >>> 2) &&& 1) <<< 5) |||
  (((x >>> 1) &&& 1) <<< 6) ||| ((x &&& 1) <<< 7)

/-! ## Byte-level register access (`adf4377_spi_write`, `adf4377_spi_read`,
`adf4377_update`, lines 59-133 of the source)

The SPI bus (`spi_write_and_read`) is modelled as a mock: a function from
the transmitted 3-byte buffer to the bus return code and the received
3-byte buffer (the C call overwrites `buff` in place). -/

/-- Model of the bus contract `spi_write_and_read`: transmitted bytes in,
(return code, received bytes) out. -/
abbrev BusMock := List Nat → Int × List Nat

/-- Transmit buffer built by `adf4377_spi_write` (lines 62-72): MSB-first
packs `{WRITE_CMD, addr, data}`; LSB-first (`bit_order` true) packs
`{bit_swap(addr), bit_swap(WRITE_CMD), bit_swap(data)}`. -/
def adf4377_spi_write_buff (bit_order : Bool) (reg_addr data : Nat) : List Nat :=
  if bit_order then
    [bit_swap_constant_8 reg_addr, bit_swap_constant_8 ADF4377_SPI_WRITE_CMD,
      bit_swap_constant_8 data]
  else
    [ADF4377_SPI_WRITE_CMD, reg_addr, data]

/-- Transmit buffer built by `adf4377_spi_read` (lines 114-124). -/
def adf4377_spi_read_buff (bit_order : Bool) (reg_addr : Nat) : List Nat :=
  if bit_order then
    [bit_swap_constant_8 reg_addr, bit_swap_constant_8 ADF4377_SPI_READ_CMD,
      bit_swap_constant_8 ADF4377_SPI_DUMMY_DATA]
  else
    [ADF4377_SPI_READ_CMD, reg_addr, ADF4377_SPI_DUMMY_DATA]

/-- Model of `adf4377_spi_write` (lines 59-75): build the buffer, hand it to
the bus, return the bus code.  The second component is the list of bus
transactions issued (always exactly one). -/
def adf4377_spi_write (bit_order : Bool) (bus : BusMock) (reg_addr data : Nat) :
    Int × List (List Nat) :=
  let buff := adf4377_spi_write_buff bit_order reg_addr data
  ((bus buff).1, [buff])

/-- Model of `adf4377_spi_read` (lines 110-133).  `data0` is the value the
caller's `*data` byte holds before the call; the result pair carries the
return code and the final value of that byte.  On bus failure the byte is
returned unchanged; on success it receives `buff[2]` of the received buffer
(a `uint8_t` cell, hence the `% 256`). -/
def adf4377_spi_read (bit_order : Bool) (bus : BusMock) (reg_addr data0 : Nat) :
    (Int × Nat) × List (List Nat) :=
  let buff := adf4377_spi_read_buff bit_order reg_addr
  let r := bus buff
  if r.1 ≠ SUCCESS then ((r.1, data0), [buff])
  else ((r.1, (r.2.getD 2 0) % 256), [buff])

/-- Model of `adf4377_update` (lines 85-101): read the register; on failure
return the read's error (no write); on success clear the bits under `mask`,
OR in `data`, and write back (the intermediate is a `uint8_t`, hence the
`&&& 255`). -/
def adf4377_update (bit_order : Bool) (bus : BusMock) (reg_addr mask data : Nat) :
    Int × List (List Nat) :=
  let rd := adf4377_spi_read bit_order bus reg_addr 0
  if rd.1.1 ≠ SUCCESS then (rd.1.1, rd.2)
  else
    let read_val := ((rd.1.2 &&& (255 ^^^ mask)) ||| data) &&& 255
    let wr := adf4377_spi_write bit_order bus reg_addr read_val
    (wr.1, rd.2 ++ wr.2)

/-! ## Soft reset (`adf4377_soft_reset`, lines 241-264)

The function sets the two soft-reset bits via `adf4377_update` and then
polls register 0x00: `uint16_t timeout = 0xFFFF; while (timeout) { read;
on bus error return it; if the reset bit is clear return SUCCESS; }` —
the source never decrements `timeout` inside the loop, and the
`return FAILURE` after the loop requires `timeout = 0`.

The poll loop is modelled with explicit fuel (number of loop iterations
allowed): `none` means the loop is still spinning after that many
iterations.  The oracle `polls` maps the poll index to the bus code and
the byte read from register 0x00. -/

/-- Poll loop of `adf4377_soft_reset` (lines 254-263).  Arguments: fuel,
poll index, current value of the C `timeout` variable.  Returns
`some (code, pollsUsed)` when the source loop returns, `none` when the
given number of iterations did not make it return.  Mirroring the source,
`timeout` is passed on unchanged by the recursive call. -/
def softResetPoll (polls : Nat → Int × Nat) : Nat → Nat → Nat → Option (Int × Nat)
  | 0, _, _ => none
  | fuel + 1, k, timeout =>
    if timeout = 0 then some (FAILURE, k)
    else
      let r := polls k
      if r.1 ≠ SUCCESS then some (r.1, k + 1)
      else if (r.2 % 256) &&& ADF4377_SOFT_RESET_BIT = 0 then some (SUCCESS, k + 1)
      else softResetPoll polls fuel (k + 1) timeout

/-- Model of `adf4377_soft_reset` (lines 241-264).  `updRet` is the result
of the initial `adf4377_update` that sets the reset bits; on its failure
the function returns it with zero polls, otherwise the poll loop runs with
`timeout = 0xFFFF`. -/
def adf4377_soft_reset (updRet : Int) (polls : Nat → Int × Nat) (fuel : Nat) :
    Option (Int × Nat) :=
  if updRet ≠ SUCCESS then some (updRet, 0)
  else softResetPoll polls fuel 0 0xFFFF

/-! ## Reference / PFD divider solver (lines 366-373)

With the doubler off the source runs
`do { R++; f_pfd = clkin / R; } while (f_pfd > ADF4377_MAX_FREQ_PFD);`
starting from `ref_div_factor = 0`.  The do-while is modelled body-first
with fuel; `fuel = clkin` always suffices (the loop stops at
`R = clkin + 1` at the latest, where `clkin / R = 0`), and the
fuel-exhausted fallback runs the body one final time, which at that point
coincides with the source's fixpoint. -/

/-- Do-while body of the reference divider solver: increment `R`, divide,
loop while the quotient still exceeds `fpfdMax`. -/
def refDivLoop (clkin fpfdMax : Nat) : Nat → Nat → Nat × Nat
  | 0, r => (r + 1, clkin / (r + 1))
  | fuel + 1, r =>
    let r' := r + 1
    let f := clkin / r'
    if f > fpfdMax then refDivLoop clkin fpfdMax fuel r' else (r', f)

/-- PFD computation of `adf4377_setup` lines 366-373: with the doubler off,
run the divider loop from `ref_div_factor = 0`; with it on,
`f_pfd = clkin * (1 + ref_doubler_en)` and the divide factor stays 0.
Returns `(ref_div_factor, f_pfd)`. -/
def adf4377_pfd_compute (ref_doubler_en clkin_freq fpfdMax : Nat) : Nat × Nat :=
  if ref_doubler_en = 0 then refDivLoop clkin_freq fpfdMax clkin_freq 0
  else (0, clkin_freq * (1 + ref_doubler_en))

/-! ## Calibration-clock sizing (lines 378-413) -/

/-- Result record of the calibration-clock sizing block. -/
structure CalCfg where
  dclk_div1 : Nat
  dclk_div2 : Nat
  dclk_mode : Nat
  f_div_rclk : Nat
  synth_lock_timeout : Nat
  vco_alc_timeout : Nat
  vco_band_div : Nat
  adc_clk_div : Nat
deriving DecidableEq

/-- The C macro `DIV_ROUND_UP` evaluated in `uint32_t` arithmetic:
`((x + y - 1) mod 2^32) / y`. -/
def DIV_ROUND_UP32 (x y : Nat) : Nat := ((x + y - 1) % 4294967296) / y

/-- Model of the sizing block of `adf4377_setup` (lines 378-413):
`f_div_rclk` is a `uint32_t` copy of `f_pfd`, the six-way range choice
sets the divide-chain parameters and divides `f_div_rclk`, and the four
derived values are ceiling divisions stored into `uint16_t` locals.  The
inner `f_div_rclk / 400000 - 2` of `adc_clk_div` is `uint32_t`
subtraction, hence the `+ 2^32 - 2` modulo `2^32`. -/
def adf4377_cal_sizing (f_pfd : Nat) : CalCfg :=
  let fdr0 := f_pfd % 4294967296
  let c :=
    if f_pfd ≤ ADF4377_FREQ_PFD_80MHZ then
      (ADF4377_DCLK_DIV1_1, ADF4377_DCLK_DIV2_1, ADF4377_DCLK_MODE_DIS, fdr0)
    else if f_pfd ≤ ADF4377_FREQ_PFD_125MHZ then
      (ADF4377_DCLK_DIV1_1, ADF4377_DCLK_DIV2_1, ADF4377_DCLK_MODE_EN, fdr0)
    else if f_pfd ≤ ADF4377_FREQ_PFD_160MHZ then
      (ADF4377_DCLK_DIV1_2, ADF4377_DCLK_DIV2_1, ADF4377_DCLK_MODE_DIS, fdr0 / 2)
    else if f_pfd ≤ ADF4377_FREQ_PFD_250MHZ then
      (ADF4377_DCLK_DIV1_2, ADF4377_DCLK_DIV2_1, ADF4377_DCLK_MODE_EN, fdr0 / 2)
    else if f_pfd ≤ ADF4377_FREQ_PFD_320MHZ then
      (ADF4377_DCLK_DIV1_2, ADF4377_DCLK_DIV2_2, ADF4377_DCLK_MODE_DIS, fdr0 / 4)
    else
      (ADF4377_DCLK_DIV1_2, ADF4377_DCLK_DIV2_2, ADF4377_DCLK_MODE_EN, fdr0 / 4)
  let fdr := c.2.2.2
  { dclk_div1 := c.1
    dclk_div2 := c.2.1
    dclk_mode := c.2.2.1
    f_div_rclk := fdr
    synth_lock_timeout := DIV_ROUND_UP32 fdr 50000 % 65536
    vco_alc_timeout := DIV_ROUND_UP32 fdr 20000 % 65536
    vco_band_div := DIV_ROUND_UP32 fdr (150000 * 16 * (1 <<< c.2.2.1)) % 65536
    adc_clk_div := DIV_ROUND_UP32 ((fdr / 400000 + 4294967294) % 4294967296) 4 % 65536 }

/-! ## VCO-range solver (`adf4377_set_freq`, lines 272-310, pure part)

The source sets `clkout_div_sel = 0`, rejects `f_clk` outside the output
range, copies `f_clk` to `f_vco`, doubles `f_vco` (incrementing the
divider exponent) while it is below the minimum VCO frequency, and sets
`n_int = f_clk / f_pfd`.  The while loop is modelled with fuel; inside
`adf4377_set_freq_calc` the fuel is `vcoMin`, which suffices whenever
`0 < f_clk` because `vcoMin < 2 ^ vcoMin`. -/

/-- While loop of `adf4377_set_freq` (lines 283-286): double `f_vco` and
bump the exponent while `f_vco < vcoMin`, up to `fuel` iterations. -/
def vcoRangeLoop (vcoMin : Nat) : Nat → Nat → Nat → Nat × Nat
  | 0, f_vco, sel => (f_vco, sel)
  | fuel + 1, f_vco, sel =>
    if f_vco < vcoMin then vcoRangeLoop vcoMin fuel (2 * f_vco) (sel + 1)
    else (f_vco, sel)

/-- Pure part of `adf4377_set_freq` (lines 276-288): `none` models the
`FAILURE` return of the `ADF4377_CHECK_RANGE(f_clk, CLKPN_FREQ)` guard;
otherwise the result is `(f_vco, clkout_div_sel, n_int)`.  The missing
header's range bounds are the parameters `clkpnMin`/`clkpnMax`, the
minimum VCO frequency is `vcoMin`. -/
def adf4377_set_freq_calc (vcoMin clkpnMin clkpnMax f_clk f_pfd : Nat) :
    Option (Nat × Nat × Nat) :=
  if f_clk > clkpnMax ∨ f_clk < clkpnMin then none
  else
    let p := vcoRangeLoop vcoMin vcoMin f_clk 0
    some (p.1, p.2, f_clk / f_pfd)

/-! ## Register-level model of `adf4377_setup` (lines 317-513) and
`adf4377_set_default` (lines 164-234)

For the orchestration claims only the sequence of bus transactions, the
registers they touch, and the propagation of return codes matter.  The
missing header's field encodings (mask and data macros) are therefore not
modelled at this level: a transaction is recorded as a read or a write of
a register address, and the mock answers each transaction from its index
in the run and the transaction itself.

The source's linear sequence of `ret = op(...); if (ret != SUCCESS)
return ret;` blocks is encoded as a step list interpreted by `runSteps`
(the spec's §9 itself suggests the data-driven encoding); each list entry
is annotated below with the source lines it represents.  In the C code
every operation assigns `ret`; an entry marked unchecked (`false`) models
the two positions where the source does not test `ret` before moving on,
and the value returned at the end of the list is the last `ret` assigned,
exactly as in the source's final `return ret;`. -/

/-- One bus transaction at register granularity. -/
inductive Txn where
  | rd (addr : Nat)
  | wr (addr : Nat)
deriving DecidableEq

/-- Mock of the device for the register-level model: transaction index and
transaction in, bus return code and (for reads) the byte read out. -/
abbrev RegMock := Nat → Txn → Int × Nat

/-- Chip range limits of the missing header, parameters of the model:
output (CLKPN) range, PFD range, and the minimum VCO frequency. -/
structure Limits where
  clkpnMin : Nat
  clkpnMax : Nat
  pfdMin : Nat
  pfdMax : Nat
  vcoMin : Nat
deriving DecidableEq

/-- Caller-supplied device parameters used by the orchestration model. -/
structure Dev where
  ref_doubler_en : Nat
  clkin_freq : Nat
  f_clk : Nat
deriving DecidableEq

/-- One step of the `adf4377_setup` sequence.  `wr`/`upd` carry the
register address and whether the source checks the returned code before
the next step. -/
inductive Step where
  | wr (addr : Nat) (checked : Bool)
  | upd (addr : Nat) (checked : Bool)
  | poll
  | chip
  | scratchRd
  | pfdGuard
  | clkGuard
deriving DecidableEq

/-- Poll loop of `adf4377_soft_reset` (lines 254-263) inside the
register-level model, fuelled like `softResetPoll` and mirroring the
source's never-decremented `timeout`; arguments after the fuel and
`timeout`: transaction index and trace.  The fuel-exhausted continuation
yields the out-of-model code `-999`, unreachable for the mocks considered
here (the source loop would still be spinning there). -/
def runPoll (mock : RegMock) : Nat → Nat → Nat → List Txn → Int × Nat × List Txn
  | 0, _, i, tr => (-999, i, tr)
  | fuel + 1, timeout, i, tr =>
    if timeout = 0 then (FAILURE, i, tr)
    else
      let r := mock i (Txn.rd 0x00)
      let tr2 := tr ++ [Txn.rd 0x00]
      if r.1 ≠ SUCCESS then (r.1, i + 1, tr2)
      else if (r.2 % 256) &&& ADF4377_SOFT_RESET_BIT = 0 then (SUCCESS, i + 1, tr2)
      else runPoll mock fuel timeout (i + 1) tr2

/-- Interpreter for the `adf4377_setup` step sequence.  State: remaining
steps, transaction index, trace, and the current value of the C `ret`
variable.  A checked step failing returns its code immediately; an
unchecked step merely records its code as the current `ret`; the end of
the list returns the last `ret` (the source's final `return ret;`).  The
`chip` step reproduces the source's `if (chip_type != ADF4377_CHIP_TYPE)
return ret;` — a mismatch returns the preceding read's own `SUCCESS` —
and `scratchRd` reproduces `adf4377_check_scratchpad`'s `return FAILURE`
on a scratchpad mismatch.  The two guard steps model the pure
`ADF4377_CHECK_RANGE` failures (lines 375-376 and 278-279). -/
def runSteps (lim : Limits) (dev : Dev) (mock : RegMock) (fuel : Nat) :
    List Step → Nat → List Txn → Int → Int × List Txn
  | [], _, tr, last => (last, tr)
  | Step.wr a chk :: rest, i, tr, _ =>
      let r := mock i (Txn.wr a)
      let tr2 := tr ++ [Txn.wr a]
      if chk ∧ r.1 ≠ SUCCESS then (r.1, tr2)
      else runSteps lim dev mock fuel rest (i + 1) tr2 r.1
  | Step.upd a chk :: rest, i, tr, _ =>
      let r := mock i (Txn.rd a)
      let tr2 := tr ++ [Txn.rd a]
      if r.1 ≠ SUCCESS then
        if chk then (r.1, tr2)
        else runSteps lim dev mock fuel rest (i + 1) tr2 r.1
      else
        let w := mock (i + 1) (Txn.wr a)
        let tr3 := tr2 ++ [Txn.wr a]
        if chk ∧ w.1 ≠ SUCCESS then (w.1, tr3)
        else runSteps lim dev mock fuel rest (i + 2) tr3 w.1
  | Step.poll :: rest, i, tr, _ =>
      let p := runPoll mock fuel 0xFFFF i tr
      if p.1 ≠ SUCCESS then (p.1, p.2.2)
      else runSteps lim dev mock fuel rest p.2.1 p.2.2 p.1
  | Step.chip :: rest, i, tr, _ =>
      let r := mock i (Txn.rd 0x03)
      let tr2 := tr ++ [Txn.rd 0x03]
      if r.1 ≠ SUCCESS then (r.1, tr2)
      else if r.2 % 256 ≠ ADF4377_CHIP_TYPE then (r.1, tr2)
      else runSteps lim dev mock fuel rest (i + 1) tr2 r.1
  | Step.scratchRd :: rest, i, tr, _ =>
      let r := mock i (Txn.rd 0x0A)
      let tr2 := tr ++ [Txn.rd 0x0A]
      if r.1 ≠ SUCCESS then (r.1, tr2)
      else if r.2 % 256 ≠ ADF4377_SPI_SCRATCHPAD then (FAILURE, tr2)
      else runSteps lim dev mock fuel rest (i + 1) tr2 r.1
  | Step.pfdGuard :: rest, i, tr, last =>
      let p := adf4377_pfd_compute dev.ref_doubler_en dev.clkin_freq lim.pfdMax
      if p.2 > lim.pfdMax ∨ p.2 < lim.pfdMin then (FAILURE, tr)
      else runSteps lim dev mock fuel rest i tr last
  | Step.clkGuard :: rest, i, tr, last =>
      if dev.f_clk > lim.clkpnMax ∨ dev.f_clk < lim.clkpnMin then (FAILURE, tr)
      else runSteps lim dev mock fuel rest i tr last

/-- The `adf4377_setup` sequence (lines 317-513), steps annotated with the
source lines they translate:
update 0x00 and the poll are `adf4377_soft_reset` (241-264, checked at
328-330); write 0x00 (332-340); the chip-type read (342-348); write 0x0A
and the scratchpad read-back are `adf4377_check_scratchpad` (140-157,
checked at 351-353); the sixteen entries 0x0F through 0x42 are
`adf4377_set_default` (164-234, checked at 356-358); update 0x15 (361-364);
the PFD guard (366-376); the twelve calibration entries (415-478); the
power-up write 0x1A (481-487), whose code the source never checks; the
CLKPN guard and the 0x11/0x12/0x10 entries are `adf4377_set_freq`
(272-310, checked at 489-491); update 0x1C (496-501); update 0x20
(503-505), whose code the source overwrites; and update 0x19 (507-512),
whose code is the function's return value. -/
def setupSteps : List Step :=
  [Step.upd 0x00 true, Step.poll,
   Step.wr 0x00 true,
   Step.chip,
   Step.wr 0x0A true, Step.scratchRd,
   Step.wr 0x0F true, Step.upd 0x1C true, Step.upd 0x1F true, Step.upd 0x20 true,
   Step.wr 0x21 true, Step.wr 0x22 true, Step.wr 0x23 true, Step.upd 0x25 true,
   Step.wr 0x2C true, Step.wr 0x31 true, Step.upd 0x32 true, Step.wr 0x33 true,
   Step.wr 0x34 true, Step.wr 0x3A true, Step.wr 0x3B true, Step.wr 0x42 true,
   Step.upd 0x15 true,
   Step.pfdGuard,
   Step.upd 0x1C true, Step.upd 0x11 true, Step.upd 0x2E true, Step.upd 0x20 true,
   Step.upd 0x2F true, Step.upd 0x24 true, Step.wr 0x27 true, Step.upd 0x28 true,
   Step.wr 0x29 true, Step.upd 0x2A true, Step.wr 0x26 true, Step.wr 0x2D true,
   Step.wr 0x1A false,
   Step.clkGuard, Step.upd 0x11 true, Step.upd 0x12 true, Step.wr 0x10 true,
   Step.upd 0x1C true,
   Step.upd 0x20 false,
   Step.upd 0x19 false]

/-- Run the register-level `adf4377_setup` from the empty trace: the
returned `int32_t` paired with the transaction trace. -/
def adf4377_setup_run (lim : Limits) (dev : Dev) (mock : RegMock) (fuel : Nat) :
    Int × List Txn :=
  runSteps lim dev mock fuel setupSteps 0 [] SUCCESS

/-! ## Lifecycle manager (`adf4377_init`, lines 521-593)

The resources and the rollback `goto` chain are modelled as an explicit
event list.  The environment fixes the outcome of each acquisition step;
the setup outcome is a further parameter (any step of `adf4377_setup` may
produce it).  Allocation of the handle itself is assumed to succeed (the
claims start at the GPIO steps). -/

/-- The resources `adf4377_init` acquires, in acquisition order. -/
inductive Res where
  | ce
  | enclk1
  | enclk2
  | spi
deriving DecidableEq

/-- Observable lifecycle events: acquisition, release, and the final
`free(dev)` of the handle memory. -/
inductive Ev where
  | acq (r : Res)
  | rel (r : Res)
  | free
deriving DecidableEq

/-- Outcomes of the fallible steps of `adf4377_init`, in source order:
`gpio_get_optional`/`gpio_direction_output` for the chip-enable GPIO,
then for enclk1, then for enclk2, then `spi_init`. -/
structure InitEnv where
  ceGet : Int
  ceDir : Int
  clk1Get : Int
  clk1Dir : Int
  clk2Get : Int
  clk2Dir : Int
  spiInit : Int
deriving DecidableEq

/-- Model of `adf4377_init` (lines 521-593): each branch is one path
through the source's `goto` chain (`error_spi` → `error_gpio_enclk2` →
`error_gpio_enclk1` → `error_gpio_ce` → `error_dev`), the labels falling
through in that order.  Result: the returned code, the event list, and
whether `*device` was assigned. -/
def adf4377_init (env : InitEnv) (setupRet : Int) : Int × List Ev × Bool :=
  if env.ceGet ≠ SUCCESS then
    (env.ceGet, [Ev.free], false)
  else if env.ceDir ≠ SUCCESS then
    (env.ceDir, [Ev.acq Res.ce, Ev.rel Res.ce, Ev.free], false)
  else if env.clk1Get ≠ SUCCESS then
    (env.clk1Get, [Ev.acq Res.ce, Ev.rel Res.ce, Ev.free], false)
  else if env.clk1Dir ≠ SUCCESS then
    (env.clk1Dir, [Ev.acq Res.ce, Ev.acq Res.enclk1,
      Ev.rel Res.enclk1, Ev.rel Res.ce, Ev.free], false)
  else if env.clk2Get ≠ SUCCESS then
    (env.clk2Get, [Ev.acq Res.ce, Ev.acq Res.enclk1,
      Ev.rel Res.enclk1, Ev.rel Res.ce, Ev.free], false)
  else if env.clk2Dir ≠ SUCCESS then
    (env.clk2Dir, [Ev.acq Res.ce, Ev.acq Res.enclk1, Ev.acq Res.enclk2,
      Ev.rel Res.enclk2, Ev.rel Res.enclk1, Ev.rel Res.ce, Ev.free], false)
  else if env.spiInit ≠ SUCCESS then
    (env.spiInit, [Ev.acq Res.ce, Ev.acq Res.enclk1, Ev.acq Res.enclk2,
      Ev.rel Res.enclk2, Ev.rel Res.enclk1, Ev.rel Res.ce, Ev.free], false)
  else if setupRet ≠ SUCCESS then
    (setupRet, [Ev.acq Res.ce, Ev.acq Res.enclk1, Ev.acq Res.enclk2, Ev.acq Res.spi,
      Ev.rel Res.spi, Ev.rel Res.enclk2, Ev.rel Res.enclk1, Ev.rel Res.ce, Ev.free], false)
  else
    (SUCCESS, [Ev.acq Res.ce, Ev.acq Res.enclk1, Ev.acq Res.enclk2, Ev.acq Res.spi], true)

/-- Specification-side function (§4.9): the resources acquired before the
first failing step, in acquisition order.  A failing `gpio_get_optional`
has acquired nothing; a failing `gpio_direction_output` comes after its
GPIO was acquired. -/
def initAcquired (env : InitEnv) (_setupRet : Int) : List Res :=
  if env.ceGet ≠ SUCCESS then []
  else if env.ceDir ≠ SUCCESS then [Res.ce]
  else if env.clk1Get ≠ SUCCESS then [Res.ce]
  else if env.clk1Dir ≠ SUCCESS then [Res.ce, Res.enclk1]
  else if env.clk2Get ≠ SUCCESS then [Res.ce, Res.enclk1]
  else if env.clk2Dir ≠ SUCCESS then [Res.ce, Res.enclk1, Res.enclk2]
  else if env.spiInit ≠ SUCCESS then [Res.ce, Res.enclk1, Res.enclk2]
  else [Res.ce, Res.enclk1, Res.enclk2, Res.spi]

/-- Specification-side function (§4.9): the error code of the first
failing step, `SUCCESS` when every step succeeds. -/
def initFirstErr (env : InitEnv) (setupRet : Int) : Int :=
  if env.ceGet ≠ SUCCESS then env.ceGet
  else if env.ceDir ≠ SUCCESS then env.ceDir
  else if env.clk1Get ≠ SUCCESS then env.clk1Get
  else if env.clk1Dir ≠ SUCCESS then env.clk1Dir
  else if env.clk2Get ≠ SUCCESS then env.clk2Get
  else if env.clk2Dir ≠ SUCCESS then env.clk2Dir
  else if env.spiInit ≠ SUCCESS then env.spiInit
  else setupRet

/-! ## Concrete scenario environments for the orchestration theorems -/

/-- Chip limits used by the concrete scenarios: output range 100 MHz to
12.8 GHz, PFD range 10 MHz to 250 MHz, minimum VCO frequency 4 GHz (the
values the spec's scenarios use; the missing header's exact numbers do not
affect the orchestration claims). -/
def testLim : Limits :=
  { clkpnMin := 100000000, clkpnMax := 12800000000, pfdMin := 10000000,
    pfdMax := 250000000, vcoMin := 4000000000 }

/-- Device parameters of scenario S1/S3: doubler off, 100 MHz reference,
1 GHz output. -/
def testDev : Dev :=
  { ref_doubler_en := 0, clkin_freq := 100000000, f_clk := 1000000000 }

/-- Mock device whose chip-type register reads back `c` and which
otherwise answers every transaction with `SUCCESS` and the byte 0 (so the
soft-reset bit reads cleared on the first poll). -/
def mockChip (c : Nat) : RegMock := fun _ t =>
  match t with
  | Txn.rd 0x03 => (SUCCESS, c)
  | Txn.rd 0x0A => (SUCCESS, ADF4377_SPI_SCRATCHPAD)
  | _ => (SUCCESS, 0)

/-- Fully successful mock: correct chip type, scratchpad echo, reset bit
cleared on the first poll. -/
def mockOk : RegMock := mockChip ADF4377_CHIP_TYPE

/-- Mock that fails exactly the power-up write to register 0x1A (with
error -5) and otherwise behaves like `mockOk`. -/
def mockPwrFail : RegMock := fun i t =>
  match t with
  | Txn.wr 0x1A => (-5, 0)
  | _ => mockOk i t

/-- Mock that fails exactly transaction index 59 — the write half of the
final ADC-clock-disable update of register 0x20 — with error -7 and
otherwise behaves like `mockOk`. -/
def mockAdcFail : RegMock := fun i t =>
  if i = 59 then (-7, 0) else mockOk i t

/-! ## Helper lemmas -/

/-- Masking with 255 is the identity on bytes. -/
theorem and255_of_lt {x : Nat} (h : x < 256) : x &&& 255 = x := by
  have h2 := Nat.and_pow_two_sub_one_eq_mod x 8
  norm_num at h2
  rw [h2, Nat.mod_eq_of_lt h]

/-- On a device whose register 0x00 always reads back with the soft-reset
bit still set (and whose reads succeed), the poll loop of
`adf4377_soft_reset` is still spinning after any number of iterations: the
`timeout` variable is never decremented by the source, so the loop guard
never turns false. -/
theorem softResetPoll_stuck (fuel k : Nat) :
    softResetPoll (fun _ => (SUCCESS, ADF4377_SOFT_RESET_BIT)) fuel k 0xFFFF = none := by
  induction fuel generalizing k with
  | zero => rfl
  | succ n ih =>
      simp only [softResetPoll, SUCCESS, ADF4377_SOFT_RESET_BIT]
      norm_num
      exact ih (k + 1)

/-- Correctness of the fuelled reference-divider do-while loop: if the fuel
reaches the answer and every divisor tried so far failed, the loop returns
the smallest admissible divisor together with the corresponding quotient. -/
theorem refDivLoop_spec (clkin fpfdMax : Nat) :
    ∀ fuel r, clkin / (r + fuel + 1) ≤ fpfdMax →
      (∀ q, 0 < q → q ≤ r → fpfdMax < clkin / q) →
      (refDivLoop clkin fpfdMax fuel r).2 = clkin / (refDivLoop clkin fpfdMax fuel r).1 ∧
      0 < (refDivLoop clkin fpfdMax fuel r).1 ∧
      clkin / (refDivLoop clkin fpfdMax fuel r).1 ≤ fpfdMax ∧
      ∀ q, 0 < q → clkin / q ≤ fpfdMax → (refDivLoop clkin fpfdMax fuel r).1 ≤ q := by
  intro fuel
  induction fuel with
  | zero =>
      intro r hfuel hprev
      refine ⟨rfl, Nat.succ_pos r, by simpa using hfuel, ?_⟩
      intro q hq hqle
      by_contra hlt
      push_neg at hlt
      have hqr : q ≤ r := Nat.lt_succ_iff.mp hlt
      exact absurd hqle (Nat.not_le.mpr (hprev q hq hqr))
  | succ n ih =>
      intro r hfuel hprev
      by_cases hgt : clkin / (r + 1) > fpfdMax
      · have hstep : refDivLoop clkin fpfdMax (n + 1) r = refDivLoop clkin fpfdMax n (r + 1) := by
          simp [refDivLoop, hgt]
        rw [hstep]
        have hfuel' : clkin / (r + 1 + n + 1) ≤ fpfdMax := by
          have heq : r + 1 + n + 1 = r + (n + 1) + 1 := by omega
          rw [heq]; exact hfuel
        refine ih (r + 1) hfuel' ?_
        intro q hq hqle
        rcases Nat.lt_or_ge q (r + 1) with hlt | hge
        · exact hprev q hq (Nat.lt_succ_iff.mp hlt)
        · have hq1 : q = r + 1 := Nat.le_antisymm hqle hge
          rw [hq1]; exact hgt
      · have hstep : refDivLoop clkin fpfdMax (n + 1) r = (r + 1, clkin / (r + 1)) := by
          simp [refDivLoop, hgt]
        rw [hstep]
        refine ⟨rfl, Nat.succ_pos r, Nat.le_of_not_lt hgt, ?_⟩
        intro q hq hqle
        by_contra hlt
        push_neg at hlt
        have hqr : q ≤ r := Nat.lt_succ_iff.mp hlt
        exact absurd hqle (Nat.not_le.mpr (hprev q hq hqr))

/-- Correctness of the fuelled VCO-range while loop: starting from a
positive frequency, with enough fuel the loop returns the frequency scaled
by the first power of two that reaches `vcoMin`. -/
theorem vcoRangeLoop_spec (vcoMin : Nat) :
    ∀ fuel f sel, 0 < f → vcoMin ≤ f * 2 ^ fuel →
      ∃ e, vcoRangeLoop vcoMin fuel f sel = (f * 2 ^ e, sel + e) ∧
        vcoMin ≤ f * 2 ^ e ∧ ∀ j, j < e → f * 2 ^ j < vcoMin := by
  intro fuel
  induction fuel with
  | zero =>
      intro f sel hf hv
      exact ⟨0, by simp [vcoRangeLoop], by simpa using hv, by omega⟩
  | succ n ih =>
      intro f sel hf hv
      by_cases hlt : f < vcoMin
      · have hv2 : vcoMin ≤ 2 * f * 2 ^ n := by
          have : f * 2 ^ (n + 1) = 2 * f * 2 ^ n := by ring
          omega
        obtain ⟨e, he, hbig, hsmall⟩ := ih (2 * f) (sel + 1) (by omega) hv2
        refine ⟨e + 1, ?_, ?_, ?_⟩
        · have hstep : vcoRangeLoop vcoMin (n + 1) f sel =
              vcoRangeLoop vcoMin n (2 * f) (sel + 1) := by
            simp [vcoRangeLoop, hlt]
          rw [hstep, he]
          simp only [Prod.mk.injEq]
          exact ⟨by ring, by omega⟩
        · have : f * 2 ^ (e + 1) = 2 * f * 2 ^ e := by ring
          omega
        · intro j hj
          match j with
          | 0 => simpa using hlt
          | j' + 1 =>
              have : f * 2 ^ (j' + 1) = 2 * f * 2 ^ j' := by ring
              have := hsmall j' (by omega)
              omega
      · refine ⟨0, ?_, by simpa using Nat.le_of_not_lt hlt, by omega⟩
        simp [vcoRangeLoop, hlt]

/-! ## Claim theorems -/

/-- C1: the claim says `adf4377_soft_reset` polls register 0x00 at most
65535 times and returns the timeout failure when the reset bit never
clears.  The code is wrong: `timeout` is initialised to 0xFFFF but never
decremented, so on a device whose reset bit never reads back as cleared
the loop spins forever (the poll loop returns no result for any number of
iterations) and the `return FAILURE` is unreachable.  The half of the
claim about a clearing bit holds: if the bit reads cleared on the third
poll, the function returns `SUCCESS` at that poll. -/
theorem soft_reset_unbounded_spin :
    (∀ fuel, adf4377_soft_reset SUCCESS
        (fun _ => (SUCCESS, ADF4377_SOFT_RESET_BIT)) fuel = none) ∧
    adf4377_soft_reset SUCCESS
        (fun k => (SUCCESS, if k < 2 then ADF4377_SOFT_RESET_BIT else 0)) 65535
      = some (SUCCESS, 3) := by
  constructor
  · intro fuel
    simpa [adf4377_soft_reset] using softResetPoll_stuck fuel 0
  · decide

/-- C3 counterexample: at `(addr, data) = (1, 0)` the LSB-first transmit
buffer of `adf4377_spi_write` is not the position-by-position bit-reversed
form of the MSB-first buffer (the source also swaps bytes 0 and 1: the
address, not the write command, leads). -/
theorem lsb_write_not_positionwise_bitrev_cex :
    ¬ (adf4377_spi_write_buff true 1 0 =
        (adf4377_spi_write_buff false 1 0).map bit_swap_constant_8) := by decide

/-- C3 amended: for every `(addr, data)`, the LSB-first buffer holds the
bit-reversed bytes of the MSB-first buffer with byte positions 0 and 1
exchanged: byte 0 is the bit-reversed register address, byte 1 the
bit-reversed write command, byte 2 the bit-reversed data. -/
theorem lsb_write_buffer_swaps_cmd_and_addr (reg_addr data : Nat) :
    adf4377_spi_write_buff true reg_addr data =
      [bit_swap_constant_8 reg_addr, bit_swap_constant_8 ADF4377_SPI_WRITE_CMD,
        bit_swap_constant_8 data] ∧
    adf4377_spi_write_buff false reg_addr data = [ADF4377_SPI_WRITE_CMD, reg_addr, data] ∧
    adf4377_spi_write_buff true reg_addr data =
      [((adf4377_spi_write_buff false reg_addr data).map bit_swap_constant_8).getD 1 0,
       ((adf4377_spi_write_buff false reg_addr data).map bit_swap_constant_8).getD 0 0,
       ((adf4377_spi_write_buff false reg_addr data).map bit_swap_constant_8).getD 2 0] := by
  refine ⟨by simp [adf4377_spi_write_buff], by simp [adf4377_spi_write_buff], ?_⟩
  simp [adf4377_spi_write_buff]

/-- C4: every failure point of `adf4377_init` releases exactly the
resources acquired before the failing step, in reverse order of
acquisition, frees the handle memory, and returns the failing step's own
error code; on success all four resources stay held, nothing is released
or freed, and the handle is delivered. -/
theorem init_rollback_exact (env : InitEnv) (setupRet : Int) :
    (adf4377_init env setupRet).1 = initFirstErr env setupRet ∧
    (initFirstErr env setupRet ≠ SUCCESS →
      (adf4377_init env setupRet).2 =
        ((initAcquired env setupRet).map Ev.acq ++
          ((initAcquired env setupRet).reverse.map Ev.rel) ++ [Ev.free], false)) ∧
    (initFirstErr env setupRet = SUCCESS →
      (adf4377_init env setupRet).2 = ((initAcquired env setupRet).map Ev.acq, true)) := by
  unfold adf4377_init initFirstErr initAcquired
  split_ifs <;> simp_all

/-- C6: for every reference frequency, with the doubler disabled the PFD
solver stores in `ref_div_factor` the smallest positive divisor whose
truncating quotient is at most the PFD bound, and `f_pfd` is exactly that
quotient. -/
theorem pfd_solver_least_divisor (clkin fpfdMax : Nat) :
    (adf4377_pfd_compute 0 clkin fpfdMax).2 =
        clkin / (adf4377_pfd_compute 0 clkin fpfdMax).1 ∧
    0 < (adf4377_pfd_compute 0 clkin fpfdMax).1 ∧
    clkin / (adf4377_pfd_compute 0 clkin fpfdMax).1 ≤ fpfdMax ∧
    ∀ q, 0 < q → clkin / q ≤ fpfdMax → (adf4377_pfd_compute 0 clkin fpfdMax).1 ≤ q := by
  have hfuel : clkin / (0 + clkin + 1) ≤ fpfdMax := by
    have : clkin / (clkin + 1) = 0 := Nat.div_eq_of_lt (Nat.lt_succ_self clkin)
    simp [this]
  have hprev : ∀ q, 0 < q → q ≤ 0 → fpfdMax < clkin / q := by omega
  have h := refDivLoop_spec clkin fpfdMax clkin 0 hfuel hprev
  simpa [adf4377_pfd_compute] using h

/-- C7: for every target frequency inside the legal output range, a
successful `adf4377_set_freq` computation yields the smallest divider
exponent that lifts the VCO frequency to at least the minimum,
`f_vco = f_clk * 2 ^ clkout_div_sel`, at most twice the minimum whenever
the target itself is below it, and the truncating `n_int = f_clk / f_pfd`. -/
theorem set_freq_vco_range (vcoMin clkpnMin clkpnMax f_clk f_pfd : Nat)
    (h0 : 0 < f_clk) (hlo : clkpnMin ≤ f_clk) (hhi : f_clk ≤ clkpnMax) :
    ∃ sel, adf4377_set_freq_calc vcoMin clkpnMin clkpnMax f_clk f_pfd
        = some (f_clk * 2 ^ sel, sel, f_clk / f_pfd) ∧
      vcoMin ≤ f_clk * 2 ^ sel ∧
      (∀ e, vcoMin ≤ f_clk * 2 ^ e → sel ≤ e) ∧
      (f_clk < vcoMin → f_clk * 2 ^ sel ≤ 2 * vcoMin) := by
  have hfuel : vcoMin ≤ f_clk * 2 ^ vcoMin := by
    have h1 : vcoMin < 2 ^ vcoMin := Nat.lt_two_pow vcoMin
    have h2 : 2 ^ vcoMin ≤ f_clk * 2 ^ vcoMin := Nat.le_mul_of_pos_left _ h0
    omega
  obtain ⟨e, he, hbig, hsmall⟩ := vcoRangeLoop_spec vcoMin vcoMin f_clk 0 h0 hfuel
  refine ⟨e, ?_, hbig, ?_, ?_⟩
  · have hrange : ¬ (f_clk > clkpnMax ∨ f_clk < clkpnMin) := by omega
    simp only [adf4377_set_freq_calc, hrange, if_false, he]
    simp
  · intro j hj
    by_contra hlt
    push_neg at hlt
    exact absurd hj (Nat.not_le.mpr (hsmall j hlt))
  · intro hclk
    match e, hsmall with
    | 0, _ =>
        exfalso
        simp only [pow_zero, Nat.mul_one] at hbig
        omega
    | e' + 1, hsmall =>
        have hprev := hsmall e' (Nat.lt_succ_self e')
        have : f_clk * 2 ^ (e' + 1) = 2 * (f_clk * 2 ^ e') := by ring
        omega

/-- Witness for C7 at scenario S3: `f_clk` = 1 GHz, `VCO_MIN` = 4 GHz,
`f_pfd` = 100 MHz gives divider exponent 2, `f_vco` = 4 GHz, `n_int` = 10. -/
theorem set_freq_vco_range_witness :
    ∃ sel, adf4377_set_freq_calc 4000000000 100000000 12800000000 1000000000 100000000
        = some (1000000000 * 2 ^ sel, sel, 1000000000 / 100000000) ∧
      4000000000 ≤ 1000000000 * 2 ^ sel ∧
      (∀ e, 4000000000 ≤ 1000000000 * 2 ^ e → sel ≤ e) ∧
      (1000000000 < 4000000000 → 1000000000 * 2 ^ sel ≤ 2 * 4000000000) :=
  set_freq_vco_range 4000000000 100000000 12800000000 1000000000 100000000
    (by norm_num) (by norm_num) (by norm_num)

/-- C8: scenario S1 — reference 100 MHz, doubler off, PFD bound 250 MHz —
produces `ref_div_factor = 1`, `f_pfd = 100 MHz`, the ≤ 125 MHz table row
(divide ratios 1 and 1, DCLK mode on), `f_div_rclk = 100000000`,
`synth_lock_timeout = 2000`, `vco_alc_timeout = 5000`,
`vco_band_div = 21` and `adc_clk_div = 62`. -/
theorem scenario_s1_values :
    adf4377_pfd_compute 0 100000000 ADF4377_MAX_FREQ_PFD = (1, 100000000) ∧
    adf4377_cal_sizing 100000000 =
      { dclk_div1 := ADF4377_DCLK_DIV1_1, dclk_div2 := ADF4377_DCLK_DIV2_1,
        dclk_mode := ADF4377_DCLK_MODE_EN, f_div_rclk := 100000000,
        synth_lock_timeout := 2000, vco_alc_timeout := 5000,
        vco_band_div := 21, adc_clk_div := 62 } := by
  constructor
  · decide
  · decide

/-- C9: `adf4377_update` issues exactly one read of the register followed,
when the read succeeds, by exactly one write whose data byte is
`(read_value AND NOT mask) OR data`, where `read_value` is the byte the
read returned; when the read fails, no write is issued and the read's
error is returned. -/
theorem update_read_modify_write (bit_order : Bool) (bus : BusMock)
    (reg_addr mask data : Nat) (_hm : mask < 256) (hd : data < 256) :
    ((bus (adf4377_spi_read_buff bit_order reg_addr)).1 ≠ SUCCESS →
      adf4377_update bit_order bus reg_addr mask data =
        ((bus (adf4377_spi_read_buff bit_order reg_addr)).1,
          [adf4377_spi_read_buff bit_order reg_addr])) ∧
    ((bus (adf4377_spi_read_buff bit_order reg_addr)).1 = SUCCESS →
      adf4377_update bit_order bus reg_addr mask data =
        ((bus (adf4377_spi_write_buff bit_order reg_addr
            ((((bus (adf4377_spi_read_buff bit_order reg_addr)).2.getD 2 0 % 256)
              &&& (255 ^^^ mask)) ||| data))).1,
          [adf4377_spi_read_buff bit_order reg_addr,
            adf4377_spi_write_buff bit_order reg_addr
              ((((bus (adf4377_spi_read_buff bit_order reg_addr)).2.getD 2 0 % 256)
                &&& (255 ^^^ mask)) ||| data)])) := by
  have hrv : (bus (adf4377_spi_read_buff bit_order reg_addr)).2.getD 2 0 % 256 < 256 :=
    Nat.mod_lt _ (by norm_num)
  have hnv : (((bus (adf4377_spi_read_buff bit_order reg_addr)).2.getD 2 0 % 256)
      &&& (255 ^^^ mask)) ||| data < 256 := by
    have h1 : ((bus (adf4377_spi_read_buff bit_order reg_addr)).2.getD 2 0 % 256)
        &&& (255 ^^^ mask) < 256 := Nat.lt_of_le_of_lt Nat.and_le_left hrv
    have h256 : (256 : Nat) = 2 ^ 8 := by norm_num
    rw [h256] at h1 hd ⊢
    exact Nat.or_lt_two_pow h1 hd
  constructor
  · intro h
    simp [adf4377_update, adf4377_spi_read, adf4377_spi_write, h]
  · intro h
    have hkey : ((((bus (adf4377_spi_read_buff bit_order reg_addr)).2.getD 2 0 % 256)
        &&& (255 ^^^ mask)) ||| data) &&& 255
        = (((bus (adf4377_spi_read_buff bit_order reg_addr)).2.getD 2 0 % 256)
          &&& (255 ^^^ mask)) ||| data := and255_of_lt hnv
    simp only [List.getD_eq_getElem?_getD] at hkey
    simp [adf4377_update, adf4377_spi_read, adf4377_spi_write, h, hkey]

/-- Witness for C9: a bus that reads back 0xF0 with mask 0x0F and data
0x05 produces exactly the read followed by a write of 0xF5. -/
theorem update_read_modify_write_witness :
    adf4377_update false (fun _ => (SUCCESS, [0, 0, 0xF0])) 0x10 0x0F 0x05 =
      (SUCCESS, [adf4377_spi_read_buff false 0x10,
        adf4377_spi_write_buff false 0x10 0xF5]) := by
  have h := update_read_modify_write false (fun _ => (SUCCESS, [0, 0, 0xF0]))
    0x10 0x0F 0x05 (by norm_num) (by norm_num)
  exact (h.2 rfl).trans (by decide)

/-- C10: when the bus transfer inside `adf4377_spi_read` fails, the
caller's output byte is left unchanged and the bus error is returned
unchanged (exactly one transaction was issued). -/
theorem spi_read_frame_on_error (bit_order : Bool) (bus : BusMock)
    (reg_addr data0 : Nat)
    (h : (bus (adf4377_spi_read_buff bit_order reg_addr)).1 ≠ SUCCESS) :
    adf4377_spi_read bit_order bus reg_addr data0 =
      (((bus (adf4377_spi_read_buff bit_order reg_addr)).1, data0),
        [adf4377_spi_read_buff bit_order reg_addr]) := by
  simp [adf4377_spi_read, h]

set_option maxRecDepth 100000 in
/-- C2 counterexample: on a device whose chip-type register reads 0 (a
mismatch, since the expected constant differs from 0) and whose bus never
fails, `adf4377_setup` stops after the chip-type read — no scratchpad,
default, or frequency transaction follows — but returns `SUCCESS`, not a
device-mismatch error: the source's mismatch branch returns the `ret` of
the just-checked successful read. -/
theorem chip_type_mismatch_returns_success_cex :
    adf4377_setup_run testLim testDev (mockChip 0) 2
      = (SUCCESS, [Txn.rd 0x00, Txn.wr 0x00, Txn.rd 0x00, Txn.wr 0x00, Txn.rd 0x03]) ∧
    (0 : Nat) ≠ ADF4377_CHIP_TYPE := by decide

set_option maxRecDepth 100000 in
set_option maxHeartbeats 2000000 in
/-- C2 amended: for every byte read from the chip-type register that
differs from the expected constant, `adf4377_setup` executes no later
setup step (the trace ends at the chip-type read) but returns `SUCCESS` —
the value of the preceding read — rather than a device-mismatch error. -/
theorem chip_type_mismatch_amended :
    ∀ c : Fin 256, c.val ≠ ADF4377_CHIP_TYPE →
      adf4377_setup_run testLim testDev (mockChip c.val) 2
        = (SUCCESS, [Txn.rd 0x00, Txn.wr 0x00, Txn.rd 0x00, Txn.wr 0x00, Txn.rd 0x03]) := by
  decide

/-- Witness for C2 amended at the concrete mismatching byte 0. -/
theorem chip_type_mismatch_amended_witness :
    adf4377_setup_run testLim testDev (mockChip 0) 2
      = (SUCCESS, [Txn.rd 0x00, Txn.wr 0x00, Txn.rd 0x00, Txn.wr 0x00, Txn.rd 0x03]) :=
  chip_type_mismatch_amended 0 (by decide)

set_option maxRecDepth 100000 in
set_option maxHeartbeats 2000000 in
/-- C5: the claim says every step of `adf4377_setup` is checked, a failing
power-up write to 0x1A prevents `set_freq`, and a failing ADC-clock-disable
update of 0x20 is returned.  The code is wrong on both counts: on a mock
failing exactly the 0x1A write, setup still runs every later transaction
(the trace equals the fully-successful run's, including the `set_freq`
write of 0x10) and returns `SUCCESS`; on a mock failing exactly the write
half of the final 0x20 update, setup proceeds to the amplitude update of
0x19 and returns `SUCCESS`. -/
theorem setup_unchecked_steps_bug :
    ((adf4377_setup_run testLim testDev mockPwrFail 2).1 = SUCCESS ∧
      (adf4377_setup_run testLim testDev mockPwrFail 2).2
        = (adf4377_setup_run testLim testDev mockOk 2).2 ∧
      Txn.wr 0x10 ∈ (adf4377_setup_run testLim testDev mockPwrFail 2).2 ∧
      (mockPwrFail 50 (Txn.wr 0x1A)).1 ≠ SUCCESS) ∧
    ((adf4377_setup_run testLim testDev mockAdcFail 2).1 = SUCCESS ∧
      (adf4377_setup_run testLim testDev mockAdcFail 2).2
        = (adf4377_setup_run testLim testDev mockOk 2).2 ∧
      (mockAdcFail 59 (Txn.wr 0x20)).1 ≠ SUCCESS) := by decide

/-- Witness for C10: a bus failing with -2 leaves the caller's byte 7
untouched and propagates -2. -/
theorem spi_read_frame_on_error_witness :
    adf4377_spi_read false (fun _ => ((-2 : Int), ([0, 0, 0] : List Nat))) 5 7 =
      ((-2, 7), [adf4377_spi_read_buff false 5]) :=
  spi_read_frame_on_error false (fun _ => ((-2 : Int), ([0, 0, 0] : List Nat))) 5 7
    (by decide)

end Adf4377
